import Mathlib

/-!
Verification of the fast-docker remote Docker fleet controller.

This file shallowly embeds the host-connection abstraction and
command-dispatch layer of the repository (src/models.py,
src/docker_manager.py, src/compose_manager.py, src/main.py) and proves
the behavioural claims about it.  External collaborators (the fabric
SSH library, the docker SDK daemon client, the docker_composer_v2
runner, the SQL storage) are modelled as explicit oracle parameters or
event traces so that the claims about call ordering (for example,
"fails before any network call") are expressed as facts about the
recorded trace.
-/

/-- Truthiness of a Python optional string: `None` and `""` are falsy,
every other string is truthy.  Used for the `if not self.host.docker_url`,
`if self.host.sudo_user` and `if self.host.sudo_password` tests in the
source. -/
def pyTruthy : Option String → Bool
  | none => false
  | some s => !(s = "")

/-- Characters removed by Python's `str.strip()` with no argument:
space, tab, newline, carriage return, vertical tab and form feed
(the ASCII whitespace set). -/
def pyIsSpace (c : Char) : Bool :=
  c = ' ' || c = '\t' || c = '\n' || c = '\r' || c.toNat = 11 || c.toNat = 12

/-- Python `str.strip()`: drop leading and trailing whitespace characters. -/
def pyStrip (s : String) : String :=
  String.mk (((s.data.dropWhile pyIsSpace).reverse.dropWhile pyIsSpace).reverse)

/-- Python `str.splitlines()` restricted to newline separators: the empty
string yields no lines, and a single trailing newline does not produce a
trailing empty line. -/
def pySplitlines (s : String) : List String :=
  if s.data = [] then []
  else
    let parts := s.splitOn "\n"
    match parts.reverse with
    | "" :: rest => rest.reverse
    | _ => parts

/-- Python `s.rsplit("/", 1)[0]`: everything before the last slash when the
string contains one, and the whole string otherwise.  This is how
`ComposeManager._get_compose` derives the compose working directory from
`stack.compose_file`. -/
def rsplitParent (s : String) : String :=
  if s.data.contains '/' then
    String.mk (((s.data.reverse.dropWhile (fun c => !(c = '/'))).drop 1).reverse)
  else s

/-- FastAPI `HTTPException`: a status code and a human-readable detail
string. -/
structure HTTPException where
  status_code : Nat
  detail : String
deriving DecidableEq, Repr

/-- Host record from src/models.py: a Docker host reachable either through
the Docker Engine API (`connection_type = "docker"`) or over SSH. -/
structure Host where
  id : Option Nat := none
  name : String
  host : String
  connection_type : String
  docker_url : Option String := none
  ssh_user : Option String := none
  ssh_key_filename : Option String := none
  ssh_port : Option Nat := some 22
  sudo_user : Option String := none
  sudo_password : Option String := none
deriving DecidableEq, Repr

/-- Stack record from src/models.py: a named compose file on a specific
host.  `host_id` is the foreign reference to the owning Host. -/
structure Stack where
  id : Option Nat := none
  name : String
  compose_file : String
  host_id : Nat
deriving DecidableEq, Repr

/-- Docker SDK client handle as constructed by
`docker.DockerClient(base_url=...)`; only the bound URL is observable in
this layer. -/
structure DockerClient where
  base_url : String
deriving DecidableEq, Repr

/-- DockerCompose handle from docker_composer_v2 as constructed by
`ComposeManager._get_compose`: the working directory and the compose file
name it was given. -/
structure DockerCompose where
  working_dir : String
  filename : String
deriving DecidableEq, Repr

/-- Whether a remote command is run through `conn.sudo` (with the given
sudo identity) or plain `conn.run`. -/
inductive RunMode where
  | sudoAs (user : Option String)
  | plain
deriving DecidableEq, Repr

/-- One request handed to the remote shell collaborator by
`DockerManager.run_ssh_command`: the fabric `Connection` parameters, the
sudo password placed in the fabric `Config` (when configured), the run
mode, the echo-suppression flag and the command text. -/
structure SshInvocation where
  host : String
  user : Option String
  port : Option Nat
  key_filename : Option String
  config_sudo_password : Option String
  mode : RunMode
  hide : Bool
  cmd : String
deriving DecidableEq, Repr

/-- The distinct ways the SSH path can fail: the TCP connection failing,
authentication failing, or the remote command exiting non-zero.  The
source catches all of them with one `except Exception` clause. -/
inductive SshFailureKind where
  | connectFailure
  | authFailure
  | nonzeroExit
deriving DecidableEq, Repr

/-- Outcome produced by the remote shell collaborator for one invocation:
either captured stdout and stderr on success, or a failure of one of the
three kinds carrying its message text. -/
inductive SshOutcome where
  | success (stdout stderr : String)
  | failure (kind : SshFailureKind) (text : String)
deriving DecidableEq, Repr

/-- The remote shell collaborator: decides the outcome of each SSH
invocation.  Passed explicitly so theorems can quantify over every
possible remote behaviour. -/
def SshEnv : Type := SshInvocation → SshOutcome

/-- Observable backend effects, recorded in traces so that claims of the
form "no network call is attempted" are statements about the trace. -/
inductive BackendEvent where
  | dockerClientCreated (base_url : String)
  | apiListContainers (base_url : String)
  | apiStartContainer (base_url : String) (container_id : String)
  | composeConstructed (c : DockerCompose)
  | sshCall (inv : SshInvocation)
deriving DecidableEq, Repr

/-- DockerManager.get_docker_client from src/docker_manager.py.  When the
connection type is `"docker"` it requires a truthy `docker_url` (raising
HTTP 400 `"Missing docker_url"` otherwise) and then constructs a client
bound to that URL; for every other connection type it returns `None`
without touching any SSH-mode field.  The trace records client
construction; the error path performs nothing. -/
def get_docker_client (host : Host) :
    Except HTTPException (Option DockerClient) × List BackendEvent :=
  if host.connection_type = "docker" then
    match host.docker_url with
    | none => (.error ⟨400, "Missing docker_url"⟩, [])
    | some url =>
        if url = "" then (.error ⟨400, "Missing docker_url"⟩, [])
        else (.ok (some ⟨url⟩), [.dockerClientCreated url])
  else (.ok none, [])

/-- Invocation assembled by DockerManager.run_ssh_command before handing
the command to fabric: the `Connection` is built from the host record,
the fabric `Config` carries the sudo password exactly when
`host.sudo_password` is truthy, and the command runs through
`conn.sudo(cmd, user=host.sudo_user, hide=True)` exactly when
`host.sudo_user` is truthy, through `conn.run(cmd, hide=True)`
otherwise. -/
def mkSshInvocation (host : Host) (cmd : String) : SshInvocation :=
  { host := host.host
    user := host.ssh_user
    port := host.ssh_port
    key_filename := host.ssh_key_filename
    config_sudo_password :=
      if pyTruthy host.sudo_password then host.sudo_password else none
    mode :=
      if pyTruthy host.sudo_user then .sudoAs host.sudo_user else .plain
    hide := true
    cmd := cmd }

/-- DockerManager.run_ssh_command from src/docker_manager.py: one remote
invocation per call; on success it returns the stripped stdout, and any
exception along the SSH path is re-raised as HTTP 500 with detail
`"SSH command failed: "` followed by the original message. -/
def run_ssh_command (host : Host) (env : SshEnv) (cmd : String) :
    Except HTTPException String × List SshInvocation :=
  match env (mkSshInvocation host cmd) with
  | .success stdout _stderr =>
      (.ok (pyStrip stdout), [mkSshInvocation host cmd])
  | .failure _kind text =>
      (.error ⟨500, "SSH command failed: " ++ text⟩,
       [mkSshInvocation host cmd])

/-- ComposeManager._get_compose from src/compose_manager.py: rejects
API-mode hosts with HTTP 400 before anything is built, and otherwise
constructs the DockerCompose handle whose working directory is
`stack.compose_file.rsplit("/", 1)[0]`. -/
def get_compose (stack : Stack) (host : Host) :
    Except HTTPException DockerCompose :=
  if host.connection_type = "docker" then
    .error ⟨400, "Docker Compose operations require SSH access"⟩
  else
    .ok { working_dir := rsplitParent stack.compose_file
          filename := stack.compose_file }

/-- Shell text issued for one compose verb; abstracts the external
docker_composer_v2 runner, which changes into the working directory and
invokes `docker compose` against the configured file with the verb's
arguments. -/
def composeShellText (c : DockerCompose) (verbArgs : String) : String :=
  "cd " ++ c.working_dir ++ " && docker compose -f " ++ c.filename ++ " " ++ verbArgs

/-- Shared body of the four compose verbs: `_get_compose` first, then the
verb runs through `run_ssh_command`.  A rejected host produces an empty
trace; an accepted one records the constructed handle and the SSH call. -/
def composeRunVerb (stack : Stack) (host : Host) (env : SshEnv)
    (verbArgs : String) : Except HTTPException String × List BackendEvent :=
  match get_compose stack host with
  | .error e => (.error e, [])
  | .ok c =>
      let r := run_ssh_command host env (composeShellText c verbArgs)
      (r.1, .composeConstructed c :: r.2.map .sshCall)

/-- ComposeManager.up: `_get_compose` then `compose.up(detach=True)`. -/
def compose_up (stack : Stack) (host : Host) (env : SshEnv) :
    Except HTTPException String × List BackendEvent :=
  composeRunVerb stack host env "up -d"

/-- ComposeManager.down: `_get_compose` then `compose.down()`. -/
def compose_down (stack : Stack) (host : Host) (env : SshEnv) :
    Except HTTPException String × List BackendEvent :=
  composeRunVerb stack host env "down"

/-- ComposeManager.ps: `_get_compose` then `compose.ps()`. -/
def compose_ps (stack : Stack) (host : Host) (env : SshEnv) :
    Except HTTPException String × List BackendEvent :=
  composeRunVerb stack host env "ps"

/-- ComposeManager.restart: `_get_compose` then `compose.restart()`. -/
def compose_restart (stack : Stack) (host : Host) (env : SshEnv) :
    Except HTTPException String × List BackendEvent :=
  composeRunVerb stack host env "restart"

/-- The DockerCompose handle a verb constructed, read off the front of its
event trace; `none` when the verb was rejected before construction. -/
def composeBuilt (r : Except HTTPException String × List BackendEvent) :
    Option DockerCompose :=
  match r.2 with
  | .composeConstructed c :: _ => some c
  | _ => none

/-- Registry state: the persisted `host` and `stack` tables.  Records are
kept in insertion order; storage-assigned integer ids live in the records
themselves. -/
structure DB where
  hosts : List Host
  stackTable : List Stack
deriving DecidableEq, Repr

/-- Registry lookup `session.get(Host, host_id)`: the host whose id equals
the requested one, or `None`. -/
def DB.getHost (db : DB) (hostId : Nat) : Option Host :=
  db.hosts.find? (fun h => h.id = some hostId)

/-- Registry lookup `session.get(Stack, stack_id)`. -/
def DB.getStack (db : DB) (stackId : Nat) : Option Stack :=
  db.stackTable.find? (fun s => s.id = some stackId)

/-- Container description in an API-mode listing: the `short_id`, `name`
and `status` fields projected by `list_containers`. -/
structure ContainerInfo where
  short_id : String
  name : String
  status : String
deriving DecidableEq, Repr

/-- The direct daemon collaborator: given the bound URL, the containers
(including stopped ones) it enumerates. -/
def DaemonEnv : Type := String → List ContainerInfo

/-- Payload shape of a container listing: structured objects from the API
backend, one JSON text row per container from the SSH backend. -/
inductive ContainersResult where
  | api (cs : List ContainerInfo)
  | ssh (rows : List String)
deriving DecidableEq, Repr

/-- How an endpoint call terminates abnormally: a deliberately raised
`HTTPException`, or an uncaught Python exception (such as the
`AttributeError` raised by touching an attribute of `None`), which the
framework surfaces as a generic internal server error. -/
inductive PyError where
  | http (e : HTTPException)
  | attributeError (msg : String)
deriving DecidableEq, Repr

/-- GET /hosts/&#123;host_id&#125;/containers from src/main.py.  The looked-up host
is used without a not-found check: `DockerManager(host)` accepts `None`,
and the first attribute access `host.connection_type` raises
`AttributeError` when the host is missing.  Otherwise the API branch
enumerates through the daemon client and the SSH branch parses one JSON
row per line of `docker ps` output. -/
def list_containers (db : DB) (hostId : Nat) (daemon : DaemonEnv)
    (env : SshEnv) : Except PyError ContainersResult × List BackendEvent :=
  match db.getHost hostId with
  | none =>
      (.error (.attributeError
        "NoneType object has no attribute connection_type"), [])
  | some host =>
      if host.connection_type = "docker" then
        match get_docker_client host with
        | (.error e, t) => (.error (.http e), t)
        | (.ok none, t) =>
            (.error (.attributeError
              "NoneType object has no attribute containers"), t)
        | (.ok (some c), t) =>
            (.ok (.api (daemon c.base_url)),
             t ++ [.apiListContainers c.base_url])
      else
        let r := run_ssh_command host env
          "docker ps -a --format \x27\x7b\x7bjson .\x7d\x7d\x27"
        match r.1 with
        | .error e => (.error (.http e), r.2.map .sshCall)
        | .ok out => (.ok (.ssh (pySplitlines out)), r.2.map .sshCall)

/-- The daemon collaborator's view of starting a container: whether a
container with the given id exists at the given URL.  A missing id makes
the docker SDK raise, which surfaces as an uncaught error. -/
def DaemonStartEnv : Type := String → String → Bool

/-- POST /hosts/&#123;host_id&#125;/containers/start/&#123;container_id&#125; from
src/main.py.  Like `list_containers`, the host lookup has no not-found
check, so a missing host id raises `AttributeError`.  The API branch gets
the container by id and starts it; the SSH branch issues
`docker start` with no existence check. -/
def start_container (db : DB) (hostId : Nat) (containerId : String)
    (daemon : DaemonStartEnv) (env : SshEnv) :
    Except PyError String × List BackendEvent :=
  match db.getHost hostId with
  | none =>
      (.error (.attributeError
        "NoneType object has no attribute connection_type"), [])
  | some host =>
      if host.connection_type = "docker" then
        match get_docker_client host with
        | (.error e, t) => (.error (.http e), t)
        | (.ok none, t) =>
            (.error (.attributeError
              "NoneType object has no attribute containers"), t)
        | (.ok (some c), t) =>
            if daemon c.base_url containerId then
              (.ok ("Started container " ++ containerId),
               t ++ [.apiStartContainer c.base_url containerId])
            else
              (.error (.attributeError "docker.errors.NotFound"),
               t ++ [.apiStartContainer c.base_url containerId])
      else
        let r := run_ssh_command host env ("docker start " ++ containerId)
        match r.1 with
        | .error e => (.error (.http e), r.2.map .sshCall)
        | .ok _ =>
            (.ok ("Started container " ++ containerId), r.2.map .sshCall)

/-- DELETE /hosts/&#123;host_id&#125; from src/main.py: 404 when the host id is
unknown, otherwise the host row is deleted and committed.  No dependent
stack is consulted or modified. -/
def delete_host (db : DB) (hostId : Nat) : Except HTTPException String × DB :=
  match db.getHost hostId with
  | none => (.error ⟨404, "Host not found"⟩, db)
  | some _ =>
      (.ok "Host deleted",
       { hosts := db.hosts.filter (fun h => !(h.id = some hostId))
         stackTable := db.stackTable })

/-- POST /hosts/&#123;host_id&#125;/stacks from src/main.py: 404 when the host id
is unknown (and nothing is persisted), otherwise the submitted stack has
its `host_id` overwritten with the path's host id and is persisted.
Storage id assignment is kept abstract: the record is appended as
given. -/
def create_stack (db : DB) (hostId : Nat) (stack : Stack) :
    Except HTTPException Stack × DB :=
  match db.getHost hostId with
  | none => (.error ⟨404, "Host not found"⟩, db)
  | some _ =>
      let s := { stack with host_id := hostId }
      (.ok s, { hosts := db.hosts, stackTable := db.stackTable ++ [s] })

/-- Fixture: an API-mode host with a bound endpoint URL. -/
def apiHost : Host :=
  { id := some 1, name := "api", host := "1.2.3.4",
    connection_type := "docker", docker_url := some "tcp://1.2.3.4:2375" }

/-- Fixture: an API-mode host whose endpoint URL is absent. -/
def apiHostNoUrl : Host :=
  { id := some 2, name := "api2", host := "1.2.3.4",
    connection_type := "docker" }

/-- Fixture: an SSH-mode host without a sudo identity. -/
def sshHost : Host :=
  { id := some 3, name := "ssh", host := "10.0.0.2",
    connection_type := "ssh", ssh_user := some "deploy",
    ssh_key_filename := some "/k" }

/-- Fixture: an SSH-mode host with a sudo identity and sudo password. -/
def sshSudoHost : Host :=
  { sshHost with
    id := some 4
    sudo_user := some "root"
    sudo_password := some "pw" }

/-- Fixture: a stack whose compose file lives in /opt/app. -/
def demoStack : Stack :=
  { id := some 1, name := "app",
    compose_file := "/opt/app/docker-compose.yml", host_id := 3 }

/-- Fixture: a remote shell that always succeeds with padded stdout. -/
def envOk : SshEnv := fun _ => .success " out \n" "err"

/-- Fixture: like `envOk` but with different stderr. -/
def envOk2 : SshEnv := fun _ => .success " out \n" "other"

/-- Fixture: a remote shell whose connection always fails. -/
def envConnFail : SshEnv := fun _ => .failure .connectFailure "boom"

/-- Fixture: a remote shell on which every command exits non-zero. -/
def envExitFail : SshEnv := fun _ => .failure .nonzeroExit "boom"

/-- C1: on a Host whose connection kind is API ("docker"), each of the
four Compose verbs fails with HTTP 400 (BackendUnsupportedError) and the
event trace is empty: no DockerCompose handle is constructed and no
network call is attempted. -/
theorem compose_verbs_rejected_on_api_host (stack : Stack) (host : Host)
    (env : SshEnv) (h : host.connection_type = "docker") :
    compose_up stack host env =
      (.error ⟨400, "Docker Compose operations require SSH access"⟩, []) ∧
    compose_down stack host env =
      (.error ⟨400, "Docker Compose operations require SSH access"⟩, []) ∧
    compose_ps stack host env =
      (.error ⟨400, "Docker Compose operations require SSH access"⟩, []) ∧
    compose_restart stack host env =
      (.error ⟨400, "Docker Compose operations require SSH access"⟩, []) := by
  refine ⟨?_, ?_, ?_, ?_⟩ <;>
    simp [compose_up, compose_down, compose_ps, compose_restart,
      composeRunVerb, get_compose, h]

/-- C1 witness: the rejection observed on the concrete API host, with a
live remote shell fixture that would answer if it were ever called. -/
theorem compose_verbs_rejected_on_api_host_witness :
    apiHost.connection_type = "docker" ∧
    (compose_up demoStack apiHost envOk =
      (.error ⟨400, "Docker Compose operations require SSH access"⟩, []) ∧
    compose_down demoStack apiHost envOk =
      (.error ⟨400, "Docker Compose operations require SSH access"⟩, []) ∧
    compose_ps demoStack apiHost envOk =
      (.error ⟨400, "Docker Compose operations require SSH access"⟩, []) ∧
    compose_restart demoStack apiHost envOk =
      (.error ⟨400, "Docker Compose operations require SSH access"⟩, [])) :=
  ⟨rfl, compose_verbs_rejected_on_api_host demoStack apiHost envOk rfl⟩

/-- C4: on a Host with connection kind API and an absent or empty
docker_url, resolving the backend client fails with HTTP 400
(ConfigurationError) and the event trace is empty: no client is
constructed and no network call happens. -/
theorem api_host_missing_url_configuration_error (host : Host)
    (hk : host.connection_type = "docker")
    (hu : pyTruthy host.docker_url = false) :
    get_docker_client host = (.error ⟨400, "Missing docker_url"⟩, []) := by
  unfold get_docker_client
  rw [hk]
  cases hd : host.docker_url with
  | none => simp
  | some u =>
      rw [hd] at hu
      simp only [pyTruthy, Bool.not_eq_false', decide_eq_true_eq] at hu
      simp [hu]

/-- C4 witness: resolution fails on the concrete API host with no URL. -/
theorem api_host_missing_url_configuration_error_witness :
    apiHostNoUrl.connection_type = "docker" ∧
    pyTruthy apiHostNoUrl.docker_url = false ∧
    get_docker_client apiHostNoUrl = (.error ⟨400, "Missing docker_url"⟩, []) :=
  ⟨rfl, rfl, api_host_missing_url_configuration_error apiHostNoUrl rfl rfl⟩

/-- Fixture: a host with an unrecognized connection type and no SSH-mode
fields populated. -/
def weirdHost : Host :=
  { id := some 5, name := "weird", host := "10.0.0.3",
    connection_type := "kubernetes" }

/-- C10: on every Host whose connection_type is not "docker" — including
SSH hosts with missing ssh_user or ssh_key_filename and hosts with an
unrecognized connection_type — get_docker_client returns None with no
error, no SSH-field validation and no backend event. -/
theorem get_docker_client_non_docker_returns_none (host : Host)
    (h : host.connection_type ≠ "docker") :
    get_docker_client host = (.ok none, []) := by
  unfold get_docker_client
  simp [h]

/-- C10 witness: the concrete host with an unrecognized connection type
and absent SSH fields resolves to None without error. -/
theorem get_docker_client_non_docker_returns_none_witness :
    weirdHost.connection_type ≠ "docker" ∧
    weirdHost.ssh_user = none ∧
    weirdHost.ssh_key_filename = none ∧
    get_docker_client weirdHost = (.ok none, []) :=
  ⟨by decide, rfl, rfl,
   get_docker_client_non_docker_returns_none weirdHost (by decide)⟩

/-- C5: on every non-API host, each of the four Compose verbs constructs
its DockerCompose handle with working directory
`compose_file.rsplit("/", 1)[0]` — the parent directory obtained by
stripping the file name off the path — identically for all four verbs,
and that derivation sends "/opt/app/docker-compose.yml" to "/opt/app". -/
theorem compose_working_dir_parent_of_compose_file (stack : Stack)
    (host : Host) (env : SshEnv) (h : host.connection_type ≠ "docker") :
    composeBuilt (compose_up stack host env) =
      some ⟨rsplitParent stack.compose_file, stack.compose_file⟩ ∧
    composeBuilt (compose_down stack host env) =
      some ⟨rsplitParent stack.compose_file, stack.compose_file⟩ ∧
    composeBuilt (compose_ps stack host env) =
      some ⟨rsplitParent stack.compose_file, stack.compose_file⟩ ∧
    composeBuilt (compose_restart stack host env) =
      some ⟨rsplitParent stack.compose_file, stack.compose_file⟩ ∧
    rsplitParent "/opt/app/docker-compose.yml" = "/opt/app" := by
  refine ⟨?_, ?_, ?_, ?_, by decide⟩ <;>
    simp [compose_up, compose_down, compose_ps, compose_restart,
      composeRunVerb, get_compose, composeBuilt, h]

/-- C5 witness: on the concrete SSH host and the stack at
"/opt/app/docker-compose.yml", every verb's working directory is
"/opt/app". -/
theorem compose_working_dir_parent_of_compose_file_witness :
    sshHost.connection_type ≠ "docker" ∧
    composeBuilt (compose_up demoStack sshHost envOk) =
      some ⟨"/opt/app", "/opt/app/docker-compose.yml"⟩ ∧
    composeBuilt (compose_ps demoStack sshHost envOk) =
      some ⟨"/opt/app", "/opt/app/docker-compose.yml"⟩ := by
  have h := compose_working_dir_parent_of_compose_file demoStack sshHost
    envOk (by decide)
  refine ⟨by decide, ?_, ?_⟩
  · exact h.1.trans (by decide)
  · exact h.2.2.1.trans (by decide)

/-- C6: each run_ssh_command call hands the remote shell exactly one
invocation, built with echo suppression (hide) and the host's SSH user;
the command runs under the configured sudo identity — with the sudo
secret placed in the fabric config when one is configured — exactly when
a sudo identity is configured, and in plain mode exactly when none is. -/
theorem run_ssh_command_sudo_identity (host : Host) (env : SshEnv)
    (cmd : String) :
    (run_ssh_command host env cmd).2 = [mkSshInvocation host cmd] ∧
    (mkSshInvocation host cmd).hide = true ∧
    (mkSshInvocation host cmd).user = host.ssh_user ∧
    (pyTruthy host.sudo_user = true →
       (mkSshInvocation host cmd).mode = .sudoAs host.sudo_user ∧
       (pyTruthy host.sudo_password = true →
          (mkSshInvocation host cmd).config_sudo_password =
            host.sudo_password)) ∧
    (pyTruthy host.sudo_user = false →
       (mkSshInvocation host cmd).mode = .plain) := by
  refine ⟨?_, rfl, rfl, ?_, ?_⟩
  · unfold run_ssh_command
    cases env (mkSshInvocation host cmd) <;> rfl
  · intro hu
    constructor
    · simp [mkSshInvocation, hu]
    · intro hp
      simp [mkSshInvocation, hp]
  · intro hu
    simp [mkSshInvocation, hu]

/-- C6 witness: on the concrete sudo-configured host the invocation runs
as root with the sudo password in the config; on the concrete host
without a sudo identity it runs in plain mode. -/
theorem run_ssh_command_sudo_identity_witness :
    (mkSshInvocation sshSudoHost "docker ps").mode = .sudoAs (some "root") ∧
    (mkSshInvocation sshSudoHost "docker ps").config_sudo_password =
      some "pw" ∧
    (mkSshInvocation sshHost "docker ps").mode = .plain ∧
    (run_ssh_command sshSudoHost envOk "docker ps").2 =
      [mkSshInvocation sshSudoHost "docker ps"] := by
  obtain ⟨htr, _, _, hs, _⟩ :=
    run_ssh_command_sudo_identity sshSudoHost envOk "docker ps"
  obtain ⟨_, _, _, _, hp⟩ :=
    run_ssh_command_sudo_identity sshHost envOk "docker ps"
  exact ⟨(hs (by decide)).1, (hs (by decide)).2 (by decide),
    hp (by decide), htr⟩

/-- C7: when the remote command succeeds, run_ssh_command returns exactly
the remote stdout with leading and trailing whitespace trimmed, and the
returned value does not depend on stderr (two shells agreeing on stdout
but differing on stderr give the same payload). -/
theorem run_ssh_command_success_trimmed_stdout (host : Host)
    (cmd stdout stderr stderr2 : String) (env env2 : SshEnv)
    (h : env (mkSshInvocation host cmd) = .success stdout stderr)
    (h2 : env2 (mkSshInvocation host cmd) = .success stdout stderr2) :
    (run_ssh_command host env cmd).1 = .ok (pyStrip stdout) ∧
    (run_ssh_command host env2 cmd).1 = (run_ssh_command host env cmd).1 := by
  constructor
  · unfold run_ssh_command
    rw [h]
  · unfold run_ssh_command
    rw [h, h2]

/-- C7 witness: stdout " out \n" comes back as "out", unchanged by a
different stderr. -/
theorem run_ssh_command_success_trimmed_stdout_witness :
    (run_ssh_command sshHost envOk "docker ps -a").1 = .ok "out" ∧
    (run_ssh_command sshHost envOk2 "docker ps -a").1 =
      (run_ssh_command sshHost envOk "docker ps -a").1 := by
  have h := run_ssh_command_success_trimmed_stdout sshHost "docker ps -a"
    " out \n" "err" "other" envOk envOk2 rfl rfl
  exact ⟨h.1.trans (by rfl), h.2⟩

/-- C8: when the remote shell fails — connection failure, authentication
failure, or a non-zero remote exit — run_ssh_command uniformly returns
HTTP 500 with detail "SSH command failed: " followed by the original
failure text, identically for every failure kind. -/
theorem run_ssh_command_failure_uniform (host : Host) (cmd text : String)
    (k k2 : SshFailureKind) (env env2 : SshEnv)
    (h : env (mkSshInvocation host cmd) = .failure k text)
    (h2 : env2 (mkSshInvocation host cmd) = .failure k2 text) :
    (run_ssh_command host env cmd).1 =
      .error ⟨500, "SSH command failed: " ++ text⟩ ∧
    (run_ssh_command host env2 cmd).1 = (run_ssh_command host env cmd).1 := by
  constructor
  · unfold run_ssh_command
    rw [h]
  · unfold run_ssh_command
    rw [h, h2]

/-- C8 witness: a connection failure and a non-zero exit with the same
message "boom" produce the same HTTP 500 payload carrying it. -/
theorem run_ssh_command_failure_uniform_witness :
    (run_ssh_command sshHost envConnFail "docker ps").1 =
      .error ⟨500, "SSH command failed: boom"⟩ ∧
    (run_ssh_command sshHost envExitFail "docker ps").1 =
      (run_ssh_command sshHost envConnFail "docker ps").1 := by
  have h := run_ssh_command_failure_uniform sshHost "docker ps" "boom"
    .connectFailure .nonzeroExit envConnFail envExitFail rfl rfl
  exact ⟨h.1.trans (by rfl), h.2⟩

/-- Fixture: an empty registry. -/
def emptyDB : DB := { hosts := [], stackTable := [] }

/-- Fixture: a daemon collaborator with no containers anywhere. -/
def daemonNone : DaemonEnv := fun _ => []

/-- Fixture: a daemon collaborator on which no container id exists. -/
def daemonStartNone : DaemonStartEnv := fun _ _ => false

/-- C2: with a host id absent from the registry, both container
operations terminate with the uncaught AttributeError produced by
reading `connection_type` off `None` — a generic framework-level 500 —
rather than the distinguishable 404 NotFoundError raised by the other
endpoints; no backend event happens. -/
theorem missing_host_container_ops_attribute_error :
    (list_containers emptyDB 999 daemonNone envOk).1 =
      .error (.attributeError
        "NoneType object has no attribute connection_type") ∧
    (list_containers emptyDB 999 daemonNone envOk).2 = [] ∧
    (start_container emptyDB 999 "abc" daemonStartNone envOk).1 =
      .error (.attributeError
        "NoneType object has no attribute connection_type") ∧
    (start_container emptyDB 999 "abc" daemonStartNone envOk).2 = [] ∧
    PyError.attributeError "NoneType object has no attribute connection_type"
      ≠ .http ⟨404, "Host not found"⟩ := by
  refine ⟨rfl, rfl, rfl, rfl, ?_⟩
  intro hcontra
  cases hcontra

/-- Fixture: an SSH host with id 1, referenced by `orphanStack`. -/
def orphanHost : Host :=
  { id := some 1, name := "h1", host := "10.0.0.4",
    connection_type := "ssh", ssh_user := some "deploy",
    ssh_key_filename := some "/k" }

/-- Fixture: a stack bound to host id 1. -/
def orphanStack : Stack :=
  { id := some 1, name := "app",
    compose_file := "/opt/app/docker-compose.yml", host_id := 1 }

/-- Fixture: a registry holding `orphanHost` and its dependent
`orphanStack`. -/
def orphanDB : DB := { hosts := [orphanHost], stackTable := [orphanStack] }

/-- C3 counterexample: host 1 has a dependent stack, yet deleting host 1
succeeds and afterwards the stack is still present, still carrying
host_id 1, while host 1 no longer resolves — the stack is silently
orphaned, with no rejection, cascade or other surfacing. -/
theorem delete_host_orphan_counterexample :
    orphanStack.host_id = 1 ∧
    DB.getHost orphanDB 1 = some orphanHost ∧
    (delete_host orphanDB 1).1 = .ok "Host deleted" ∧
    (delete_host orphanDB 1).2.stackTable = [orphanStack] ∧
    DB.getHost (delete_host orphanDB 1).2 orphanStack.host_id = none := by
  refine ⟨rfl, by decide, rfl, rfl, by decide⟩

/-- C3 amended: deleting an existing Host always succeeds, removes only
the host row, and leaves the stack table — dependent Stacks included —
exactly as it was, so Stacks referencing the deleted host id remain
behind referencing a host that no longer resolves. -/
theorem delete_host_leaves_dependent_stacks (db : DB) (hostId : Nat)
    (h : Host) (hh : DB.getHost db hostId = some h) :
    (delete_host db hostId).1 = .ok "Host deleted" ∧
    (delete_host db hostId).2.stackTable = db.stackTable ∧
    DB.getHost (delete_host db hostId).2 hostId = none := by
  unfold delete_host
  rw [hh]
  refine ⟨rfl, rfl, ?_⟩
  unfold DB.getHost
  apply List.find?_eq_none.mpr
  intro x hx
  have hmem := List.of_mem_filter hx
  simpa using hmem

/-- C3 amended witness: the concrete deletion from
`delete_host_orphan_counterexample`'s registry, through the amended
theorem. -/
theorem delete_host_leaves_dependent_stacks_witness :
    (delete_host orphanDB 1).1 = .ok "Host deleted" ∧
    (delete_host orphanDB 1).2.stackTable = orphanDB.stackTable ∧
    DB.getHost (delete_host orphanDB 1).2 1 = none :=
  delete_host_leaves_dependent_stacks orphanDB 1 orphanHost (by decide)

/-- Fixture: a registered host with id 7. -/
def regHost : Host :=
  { id := some 7, name := "prod", host := "prod.example.com",
    connection_type := "ssh", ssh_user := some "deploy",
    ssh_key_filename := some "/k" }

/-- Fixture: a registry holding only `regHost`. -/
def regDB : DB := { hosts := [regHost], stackTable := [] }

/-- Fixture: a stack submission whose body still carries host_id 0. -/
def newStack : Stack :=
  { name := "web", compose_file := "/srv/web/docker-compose.yml",
    host_id := 0 }

/-- C9: creating a stack against an unknown host id fails with HTTP 404
and leaves the registry unchanged (nothing persisted); against an
existing host it persists exactly one stack whose host_id equals the
path's host id, so every persisted Stack references an existing Host at
creation time. -/
theorem create_stack_requires_existing_host (db : DB) (hostId : Nat)
    (stack : Stack) :
    (DB.getHost db hostId = none →
       create_stack db hostId stack =
         (.error ⟨404, "Host not found"⟩, db)) ∧
    (∀ h : Host, DB.getHost db hostId = some h →
       create_stack db hostId stack =
         (.ok { stack with host_id := hostId },
          { hosts := db.hosts
            stackTable := db.stackTable ++
              [{ stack with host_id := hostId }] })) := by
  constructor
  · intro hn
    unfold create_stack
    rw [hn]
  · intro h hh
    unfold create_stack
    rw [hh]

/-- C9 witness: against the one-host registry, host id 99 yields 404 with
nothing persisted, and host id 7 persists the stack rebound to
host_id 7. -/
theorem create_stack_requires_existing_host_witness :
    create_stack regDB 99 newStack =
      (.error ⟨404, "Host not found"⟩, regDB) ∧
    create_stack regDB 7 newStack =
      (.ok { newStack with host_id := 7 },
       { hosts := [regHost]
         stackTable := [{ newStack with host_id := 7 }] }) := by
  constructor
  · exact (create_stack_requires_existing_host regDB 99 newStack).1
      (by decide)
  · exact (create_stack_requires_existing_host regDB 7 newStack).2
      regHost (by decide)
